import Mathlib

/-!
Verification development for the multi-agent NBA workflow backend
(`nba-backend` / `a2a-backend`).

The Python sources are shallowly embedded as executable Lean functions:

* `Json` models parsed JSON values (the output of `response.json()` /
  `json.loads`); Python truthiness and `in` / `.get` access are modelled
  explicitly.
* `call_elastic_agent_a2a` (worker_agents.py) is embedded over an
  `A2AOutcome` describing the outcome of the single HTTP exchange; all of
  the function's own control flow (JSON-RPC error check, the ordered
  text-extraction rules, the exception handlers that map every transport
  failure to `None`) is reproduced from the source.
* The worker nodes, the parallel join, the supervisor routing, the graph
  wiring of `MultiAgentWorkflow._build_workflow`, the synthesizer and
  `MultiAgentWorkflow.run` are embedded as pure functions over an explicit
  `AgentState` record mirroring `models/state.py`.

External services (Azure OpenAI, the remote agents, the HTTP layer) are
represented by outcome parameters (`LLMOutcome`, `A2AOutcome`): each value
describes what the external call did, and the embedding reproduces how the
source reacts to it.
-/

/-! ## JSON values and Python-style access -/

/-- A parsed JSON value, as returned by Python's `json.loads` /
`response.json()`.  Numbers are modelled as integers (no claim depends on
float payloads). -/
inductive Json where
  | null
  | bool (b : Bool)
  | num (n : Int)
  | str (s : String)
  | arr (xs : List Json)
  | obj (fields : List (String × Json))

/-- Python truthiness (`if x:`) of a JSON value: `None`, `False`, `0`,
`""`, `[]`, `{}` are falsy, everything else truthy. -/
def jsonTruthy : Json → Bool
  | .null => false
  | .bool b => b
  | .num n => n != 0
  | .str s => s ≠ ""
  | .arr xs => !xs.isEmpty
  | .obj fs => !fs.isEmpty

/-- Dictionary lookup `d[k]` / `d.get(k)`: first binding of the key in an
object, `none` for non-objects or missing keys. -/
def jlookup (j : Json) (key : String) : Option Json :=
  match j with
  | .obj fs => List.lookup key fs
  | _ => none

/-- `key in j` for an object: key membership. -/
def jHasKey (j : Json) (key : String) : Bool :=
  (jlookup j key).isSome

/-- Character-list version of "starts with". -/
def charsHavePre : List Char → List Char → Bool
  | [], _ => true
  | _ :: _, [] => false
  | a :: as, b :: bs => a == b && charsHavePre as bs

/-- Character-list version of "contains as a contiguous run". -/
def charsHaveSub (needle : List Char) : List Char → Bool
  | [] => charsHavePre needle []
  | l@(_ :: t) => charsHavePre needle l || charsHaveSub needle t

/-- `sub in s` for Python strings: substring containment. -/
def strHasSub (s sub : String) : Bool :=
  charsHaveSub sub.data s.data

/-- Python `str()` rendering of a JSON value, as used by f-strings in the
source's diagnostic messages.  Lists/objects are rendered schematically;
no claim depends on their exact rendering. -/
def pyStr : Json → String
  | .null => "None"
  | .bool true => "True"
  | .bool false => "False"
  | .num n => toString n
  | .str s => s
  | .arr _ => "[...]"
  | .obj _ => "\x7b...\x7d"

/-! ## Remote Agent Client (`worker_agents.call_elastic_agent_a2a`) -/

/-- Outcome of the single `httpx` POST performed by
`call_elastic_agent_a2a`, one constructor per `except` clause of the
source plus the success case carrying the parsed response body. -/
inductive A2AOutcome where
  /-- `httpx.TimeoutException` -/
  | timeout
  /-- `httpx.ConnectTimeout` -/
  | connectTimeout
  /-- `httpx.ConnectError` -/
  | connectError
  /-- `httpx.HTTPStatusError` raised by `response.raise_for_status()` -/
  | httpError (status : Nat)
  /-- `httpx.RequestError` -/
  | requestError (msg : String)
  /-- any other exception caught by the final `except Exception` -/
  | otherExn (msg : String)
  /-- transport success: `response.json()` parsed to `data` -/
  | ok (data : Json)

/-- `part.get("kind") == "text"`. -/
def isTextKind (p : Json) : Bool :=
  match jlookup p "kind" with
  | some (.str k) => k == "text"
  | _ => false

/-- The `parts` loop of the primary extraction path: return the `text` of
the first element that is a dict with `kind == "text"`, a `"text"` key and
a truthy text value (`if text: return text`). -/
def firstPartText : List Json → Option Json
  | [] => none
  | p :: rest =>
    match p with
    | .obj _ =>
      if isTextKind p && (jlookup p "text").isSome then
        let text := (jlookup p "text").getD (.str "")
        if jsonTruthy text then some text else firstPartText rest
      else firstPartText rest
    | _ => firstPartText rest

/-- Primary path: `result.parts`, when `result` is a dict whose `parts`
value is a non-empty list. -/
def partsPath (result : Json) : Option Json :=
  match result with
  | .obj _ =>
    match jlookup result "parts" with
    | some (.arr parts) => if parts.isEmpty then none else firstPartText parts
    | _ => none
  | _ => none

/-- One alternate field value: a non-blank string, or a dict with a
non-blank string under `"text"`. -/
def altFieldText (v : Json) : Option Json :=
  match v with
  | .str s => if s.trim ≠ "" then some (.str s) else none
  | .obj _ =>
    match jlookup v "text" with
    | some (.str t) => if t.trim ≠ "" then some (.str t) else none
    | _ => none
  | _ => none

/-- The well-known alternate field names probed by the source, in the
source's order. -/
def altFieldNames : List String :=
  ["response", "content", "data", "text", "message", "output"]

/-- Fallback path: probe the alternate field names in order on a dict
result. -/
def altFieldsPath (result : Json) : List String → Option Json
  | [] => none
  | name :: rest =>
    match jlookup result name with
    | some v =>
      match altFieldText v with
      | some t => some t
      | none => altFieldsPath result rest
    | none => altFieldsPath result rest

/-- The inner `parts` loop of the artifacts path — unlike
`firstPartText` it does not require a `"text"` key (`part.get("text", "")`
defaults it). -/
def artifactPartText : List Json → Option Json
  | [] => none
  | p :: rest =>
    match p with
    | .obj _ =>
      if isTextKind p then
        let text := (jlookup p "text").getD (.str "")
        if jsonTruthy text then some text else artifactPartText rest
      else artifactPartText rest
    | _ => artifactPartText rest

/-- One artifact entry value under one of the probed keys. -/
def artifactKeyText (v : Json) : Option Json :=
  match v with
  | .str s => if s.trim ≠ "" then some (.str s) else none
  | .arr parts => artifactPartText parts
  | _ => none

/-- Probe the keys `parts`, `content`, `text`, `data` of one artifact. -/
def artifactEntry (artifact : Json) : List String → Option Json
  | [] => none
  | key :: rest =>
    match jlookup artifact key with
    | some v =>
      match artifactKeyText v with
      | some t => some t
      | none => artifactEntry artifact rest
    | none => artifactEntry artifact rest

/-- The artifacts loop: first artifact (a dict) yielding a text. -/
def firstArtifactText : List Json → Option Json
  | [] => none
  | a :: rest =>
    match a with
    | .obj _ =>
      match artifactEntry a ["parts", "content", "text", "data"] with
      | some t => some t
      | none => firstArtifactText rest
    | _ => firstArtifactText rest

/-- Fourth path: the nested `artifacts` fallback structure, on a dict
result with a non-empty `artifacts` list. -/
def artifactsPath (result : Json) : Option Json :=
  match result with
  | .obj _ =>
    match jlookup result "artifacts" with
    | some (.arr artifacts) =>
      if artifacts.isEmpty then none else firstArtifactText artifacts
    | _ => none
  | _ => none

/-- Extraction from the `result` value of the JSON-RPC response, exactly
in the source's order: `result.parts`, plain string result, alternate
field names, artifacts.  A non-dict non-string result falls through every
path (on a list, the stray `"artifacts" in result` membership test either
is false or leads to a `TypeError` caught by the final handler — both
return `None`). -/
def extractFromResult (result : Json) : Option Json :=
  match partsPath result with
  | some t => some t
  | none =>
    match result with
    | .str s => some (.str s)
    | _ =>
      match altFieldsPath result altFieldNames with
      | some t => some t
      | none => artifactsPath result

/-- Body handling of `call_elastic_agent_a2a` after transport success:
a truthy JSON-RPC `error` field returns `None` (as does the `AttributeError`
raised while logging a non-dict error value, caught by the final handler);
otherwise extraction runs on the `result` field; a missing `result` field
returns `None`.  Non-dict bodies also return `None` (their `in` tests are
false or raise a caught `TypeError`). -/
def extractText (data : Json) : Option Json :=
  match data with
  | .obj _ =>
    match jlookup data "error" with
    | some e =>
      if jsonTruthy e then none
      else
        match jlookup data "result" with
        | some result => extractFromResult result
        | none => none
    | none =>
      match jlookup data "result" with
      | some result => extractFromResult result
      | none => none
  | _ => none

/-- `call_elastic_agent_a2a`: every `except` clause returns `None`; on
transport success the body is processed by `extractText`.  The request
envelope is built from `agent_url` and `query` (the api-key header only
selects an auth scheme); what the exchange did is described by `outcome`.
The worker layer stores string payloads (the function is annotated
`-> str`), so a non-string extracted value is not representable at the
state layer and is collapsed to `none` here. -/
def call_elastic_agent_a2a (agent_url query : String)
    (outcome : A2AOutcome) : Option String :=
  match outcome with
  | .ok data =>
    match extractText data with
    | some (.str s) => some s
    | _ => none
  | _ => none

/-! ## Agent state (`models/state.py`) -/

/-- A chat message (`langchain_core.messages`): only the role and the
content are relevant to the embedding. -/
inductive Message where
  | human (content : String)
  | ai (content : String)
deriving DecidableEq

/-- `AgentState` from `models/state.py`, with the pydantic defaults. -/
structure AgentState where
  user_message : String := ""
  messages : List Message := []
  next_node : String := "supervisor"
  supervisor_reasoning : String := ""
  status : String := "initialized"
  progress : Int := 0
  workflow_step : Int := 0
  agent_history : List String := []
  current_agent : String := ""
  stats_agent_response : String := ""
  media_agent_response : String := ""
  final_report : String := ""
  insights : List String := []
  success : Bool := false
  error : Option String := none

/-! ## Environment and stage executors (`worker_agents.py`) -/

/-- The routing decision service interaction of `SupervisorAgent.route`:
either `llm.invoke` raised (transport or unexpected error), or it returned
a response text whose cleaned form (`_clean_response`) was handed to
`json.loads` with the given outcome (`.error msg` is the
`json.JSONDecodeError` message, `.ok j` the parsed value). -/
inductive LLMOutcome where
  | raised (msg : String)
  | responded (parsed : Except String Json)

/-- Process environment and external-world behaviour for one run:
the two optional stage endpoint URLs (`ELASTIC_STATS_AGENT_URL`,
`ELASTIC_MEDIA_AGENT_URL`), the outcome of each stage's remote call when
made, the decision-service outcome, a defensive exception escaping a
stage body inside the parallel join (`joinExc`), and a defensive
exception escaping the engine itself (`runExc`). -/
structure Env where
  statsUrl : Option String
  mediaUrl : Option String
  statsCall : A2AOutcome
  mediaCall : A2AOutcome
  routeOutcome : LLMOutcome
  joinExc : Option String
  runExc : Option String

/-- A partial state update returned by a worker node: the dict's keys,
`none` = key absent. `next_node` is a plain string because every return
statement of the worker nodes sets it. -/
structure StageUpdate where
  stats_agent_response : Option String := none
  media_agent_response : Option String := none
  error : Option String := none
  next_node : String := "synthesize"

/-- Canned response of `stats_agent_node` when
`ELASTIC_STATS_AGENT_URL` is unconfigured. -/
def statsMockUnconfigured : String :=
  "## Top NBA Scorers 2024-2025 Season\n\n1. **Shai Gilgeous-Alexander** (Oklahoma City Thunder) - 32.7 PPG\n2. **Luka Dončić** (Dallas Mavericks) - 33.9 PPG\n3. **LeBron James** (Los Angeles Lakers) - 28.7 PPG"

/-- Canned fallback of `stats_agent_node` when the remote call returned
no data. -/
def statsMockFallback : String :=
  "## Top NBA Scorers (Mock Data)\n\nNote: Using mock data - agent did not return text."

/-- Canned response of `media_agent_node` when
`ELASTIC_MEDIA_AGENT_URL` is unconfigured. -/
def mediaMockUnconfigured : String :=
  "## Recommended NBA Media\n\n### Documentaries\n- \"The Last Dance\" (ESPN)\n- NBA League Pass"

/-- Canned fallback of `media_agent_node` when the remote call returned
no data. -/
def mediaMockFallback : String :=
  "## Recommended NBA Media (Mock Data)\n\nNote: Using mock data - agent did not return text."

/-- `stats_agent_node`: unconfigured URL → canned mock; otherwise call
the remote agent and use its text when truthy (`if stats_response:`),
else the mock fallback.  The `except` branch of the source (which would
set `error`) is unreachable here because `call_elastic_agent_a2a`
catches every exception and returns `None`. -/
def stats_agent_node (env : Env) (state : AgentState) : StageUpdate :=
  match env.statsUrl with
  | none => { stats_agent_response := some statsMockUnconfigured }
  | some agent_url =>
    match call_elastic_agent_a2a agent_url state.user_message env.statsCall with
    | some r =>
      if r ≠ "" then { stats_agent_response := some r }
      else { stats_agent_response := some statsMockFallback }
    | none => { stats_agent_response := some statsMockFallback }

/-- `media_agent_node`, symmetric to `stats_agent_node`. -/
def media_agent_node (env : Env) (state : AgentState) : StageUpdate :=
  match env.mediaUrl with
  | none => { media_agent_response := some mediaMockUnconfigured }
  | some agent_url =>
    match call_elastic_agent_a2a agent_url state.user_message env.mediaCall with
    | some r =>
      if r ≠ "" then { media_agent_response := some r }
      else { media_agent_response := some mediaMockFallback }
    | none => { media_agent_response := some mediaMockFallback }

/-- `stats_and_media_node`: `asyncio.gather` launches both stage bodies
on the same input state and waits for both; the merged update takes each
stage's own response key (`result.get(key, "")`).  `env.joinExc` models
the defensive `except Exception` branch: both response fields become the
error-annotated string and `error` is set. -/
def stats_and_media_node (env : Env) (state : AgentState) : StageUpdate :=
  match env.joinExc with
  | some msg =>
    { stats_agent_response := some ("Error: " ++ msg)
      media_agent_response := some ("Error: " ++ msg)
      error := some msg }
  | none =>
    let stats_result := stats_agent_node env state
    let media_result := media_agent_node env state
    { stats_agent_response := some (stats_result.stats_agent_response.getD "")
      media_agent_response := some (media_result.media_agent_response.getD "") }

/-! ## The synthesizer (`synthesizer.py`) -/

/-- Python truthiness of the `Optional[str]` field `error`
(`bool(state.error)`): `None` and `""` are falsy. -/
def optStrTruthy : Option String → Bool
  | none => false
  | some s => s ≠ ""

/-- The `Agents Used` line: `' → '.join(state.agent_history) or 'None'`. -/
def agentsUsedLine (history : List String) : String :=
  let joined := String.intercalate " → " history
  if joined = "" then "None" else joined

/-- The report body of `synthesize_node`, joined with `"\n"`, built from
the state *after* `status`/`progress`/`success` were updated. -/
def synthesisReport (s : AgentState) : String :=
  let parts : List String :=
    ["# Multi-Agent NBA Analytics Report\n",
     "## Query\n" ++ s.user_message ++ "\n",
     "## Workflow Summary",
     "- **Agents Used**: " ++ agentsUsedLine s.agent_history,
     "- **Status**: " ++ s.status,
     "- **Progress**: " ++ toString s.progress ++ "%\n"]
    ++ (if optStrTruthy s.error then
          ["## Error\n" ++ s.error.getD "" ++ "\n"] else [])
    ++ (if s.stats_agent_response ≠ "" then
          ["## NBA Statistics\n", s.stats_agent_response, "\n"] else [])
    ++ (if s.media_agent_response ≠ "" then
          ["## Media Recommendations\n", s.media_agent_response, "\n"] else [])
    ++ (if !s.insights.isEmpty then
          "## Key Insights\n" :: s.insights.map (fun i => "- " ++ i ++ "\n")
        else [])
  String.intercalate "\n" parts

/-- `synthesize_node` (synthesizer.py): set `progress = 100`,
`status = "completed" if not state.error else "error"`,
`success = not bool(state.error)`, build the report, store it in
`final_report` and append one AI message carrying it.  The function body
is total, so the source's defensive `except` branch (which would set
`status = "synthesis_error"`) is unreachable. -/
def synthesize_node (s : AgentState) : AgentState :=
  let s1 : AgentState :=
    { s with
      progress := 100
      status := if !optStrTruthy s.error then "completed" else "error"
      success := !optStrTruthy s.error }
  let final_report := synthesisReport s1
  { s1 with
    final_report := final_report
    messages := s1.messages ++ [.ai final_report] }

/-! ## Router (`supervisor.py` / `supervisor_node.py`) -/

/-- Failure classification of `_parse_routing_decision` as seen by the
`except` clauses of `route`: a `json.JSONDecodeError`, a `ValueError`
raised by the validation, or another exception (`TypeError` from `in` on
a non-container, `AttributeError` from `.get` on a non-dict) caught by
the generic handler. -/
inductive ParseFailure where
  | jsonDecode (msg : String)
  | valueError (msg : String)
  | otherExn (msg : String)

/-- `next_agent in valid_agents` for
`valid_agents = ["stats_agent", "media_agent", "both", "synthesize"]`. -/
def isValidAgent (v : Json) : Bool :=
  match v with
  | .str s =>
    s == "stats_agent" || s == "media_agent" || s == "both" || s == "synthesize"
  | _ => false

/-- `"next_agent" in decision` with Python semantics: key membership for
dicts, element membership for lists, substring test for strings, and a
`TypeError` for the remaining types. -/
def pyContainsKey (key : String) (j : Json) : Except String Bool :=
  match j with
  | .obj _ => .ok (jHasKey j key)
  | .arr xs => .ok (xs.any (fun v =>
      match v with
      | .str s => s == key
      | _ => false))
  | .str s => .ok (strHasSub s key)
  | _ => .error "argument of type is not iterable"

/-- `_parse_routing_decision` on the `json.loads` outcome of the cleaned
response text: a parse error re-raises the `JSONDecodeError`; a missing
`next_agent` or a disallowed value raises `ValueError`; `.get` on a
non-dict that passed the membership test raises `AttributeError`. -/
def parseRoutingDecision (parsed : Except String Json) :
    Except ParseFailure Json :=
  match parsed with
  | .error e => .error (.jsonDecode e)
  | .ok decision =>
    match pyContainsKey "next_agent" decision with
    | .error m => .error (.otherExn m)
    | .ok false =>
      .error (.valueError "Missing 'next_agent' field in routing decision")
    | .ok true =>
      match decision with
      | .obj _ =>
        let next_agent := (jlookup decision "next_agent").getD .null
        if isValidAgent next_agent then .ok decision
        else
          .error (.valueError ("Invalid agent: " ++ pyStr next_agent ++
            ". Must be one of: ['stats_agent', 'media_agent', 'both', 'synthesize']"))
      | _ => .error (.otherExn "object has no attribute get")

/-- The dict returned by `SupervisorAgent.route`; `none` = key absent
(the source always populates all three keys, but `supervisor_node`
defends against absence with `.get`). -/
structure RouteDict where
  next_node : Option String := none
  supervisor_reasoning : Option String := none
  success : Option Bool := none

/-- The fallback dict shared by the three `except` clauses of `route`. -/
def routeFallback (diagnostic : String) : RouteDict :=
  { next_node := some "stats_agent"
    supervisor_reasoning := some (diagnostic ++ ". Defaulting to stats_agent.")
    success := some false }

/-- `SupervisorAgent.route`: on a validated decision return
`next_agent` / `reasoning` with `success = True`; each `except` clause
returns the `stats_agent` fallback with its own diagnostic prefix around
`str(e)`. -/
def SupervisorAgent.route (o : LLMOutcome) : RouteDict :=
  match o with
  | .raised m => routeFallback ("Unexpected error during routing: " ++ m)
  | .responded parsed =>
    match parseRoutingDecision parsed with
    | .ok decision =>
      let next_agent := (jlookup decision "next_agent").getD (.str "stats_agent")
      let reasoning := (jlookup decision "reasoning").getD (.str "")
      { next_node := some (pyStr next_agent)
        supervisor_reasoning := some (pyStr reasoning)
        success := some true }
    | .error (.jsonDecode m) =>
      routeFallback ("Error parsing routing decision: " ++ m)
    | .error (.valueError m) =>
      routeFallback ("Error in routing decision: " ++ m)
    | .error (.otherExn m) =>
      routeFallback ("Unexpected error during routing: " ++ m)

/-- The state update performed by `supervisor_node` after `route`
returned: `result.get("next_node", "stats_agent")`,
`result.get("supervisor_reasoning", "")`, status and progress. -/
def applyRouteResult (r : RouteDict) (s : AgentState) : AgentState :=
  { s with
    next_node := r.next_node.getD "stats_agent"
    supervisor_reasoning := r.supervisor_reasoning.getD ""
    status := "supervisor_complete"
    progress := 25 }

/-- `supervisor_node` (nba-backend): an empty `user_message`
short-circuits to `synthesize` without calling the decision service;
otherwise the routing result is applied to the state. -/
def supervisor_node (o : LLMOutcome) (s : AgentState) : AgentState :=
  if s.user_message = "" then
    { s with
      next_node := "synthesize"
      supervisor_reasoning := "No user message provided"
      status := "supervisor_complete"
      progress := 25 }
  else applyRouteResult (SupervisorAgent.route o) s

/-! ## Workflow graph and engine (`main.py`) -/

/-- The nodes of the compiled graph of
`MultiAgentWorkflow._build_workflow`, plus the LangGraph `START`/`END`
markers. -/
inductive GNode where
  | start
  | supervisor
  | stats_agent
  | media_agent
  | both_agents
  | synthesize
  | finish
deriving DecidableEq

/-- The conditional-edge mapping passed to `add_conditional_edges` for
the supervisor node: routing value → target node. -/
def conditionalMap : String → Option GNode
  | "stats_agent" => some .stats_agent
  | "media_agent" => some .media_agent
  | "both" => some .both_agents
  | "synthesize" => some .synthesize
  | _ => none

/-- The unconditional `add_edge` calls of `_build_workflow`. -/
def unconditionalEdges : List (GNode × GNode) :=
  [(.start, .supervisor),
   (.stats_agent, .synthesize),
   (.media_agent, .synthesize),
   (.both_agents, .synthesize),
   (.synthesize, .finish)]

/-- Merge a worker dict result into the state:
`for key, value in result.items(): if hasattr(state, key): setattr` —
all four keys exist on `AgentState`, so a present key overwrites the
field. -/
def applyUpdate (s : AgentState) (u : StageUpdate) : AgentState :=
  { s with
    stats_agent_response := u.stats_agent_response.getD s.stats_agent_response
    media_agent_response := u.media_agent_response.getD s.media_agent_response
    error := match u.error with
             | some e => some e
             | none => s.error
    next_node := u.next_node }

/-- `MultiAgentWorkflow._stats_agent_node`: run the async stage, merge
its dict, then stamp status/progress/current agent/history. -/
def statsWrapperNode (env : Env) (s : AgentState) : AgentState :=
  let s1 := applyUpdate s (stats_agent_node env s)
  { s1 with
    status := "stats_agent_complete"
    progress := 60
    current_agent := "stats_agent"
    agent_history := s1.agent_history ++ ["stats_agent"] }

/-- `MultiAgentWorkflow._media_agent_node`. -/
def mediaWrapperNode (env : Env) (s : AgentState) : AgentState :=
  let s1 := applyUpdate s (media_agent_node env s)
  { s1 with
    status := "media_agent_complete"
    progress := 60
    current_agent := "media_agent"
    agent_history := s1.agent_history ++ ["media_agent"] }

/-- `MultiAgentWorkflow._both_agents_node`. -/
def bothWrapperNode (env : Env) (s : AgentState) : AgentState :=
  let s1 := applyUpdate s (stats_and_media_node env s)
  { s1 with
    status := "both_agents_complete"
    progress := 70
    current_agent := "both_agents"
    agent_history := s1.agent_history ++ ["stats_agent", "media_agent"] }

/-- The terminal state of one graph execution: supervisor, then the
conditionally chosen worker (or directly synthesis), then synthesis.
`none` models the LangGraph exception raised when the routing value has
no entry in the conditional map (caught by `run`'s `except`). -/
def graphInvoke (env : Env) (s0 : AgentState) : Option AgentState :=
  let s1 := supervisor_node env.routeOutcome s0
  match conditionalMap s1.next_node with
  | some .stats_agent => some (synthesize_node (statsWrapperNode env s1))
  | some .media_agent => some (synthesize_node (mediaWrapperNode env s1))
  | some .both_agents => some (synthesize_node (bothWrapperNode env s1))
  | some .synthesize => some (synthesize_node s1)
  | _ => none

/-- The result dict of `MultiAgentWorkflow.run`; `agents_used = none`
models the error-path dict, which has no `agents_used` key. -/
structure RunResult where
  success : Bool
  status : String
  progress : Int
  final_report : String
  agents_used : Option (List String)
  error : Option String

/-- The `error_result` dict built by `run`'s `except` clause. -/
def errorResult (msg : String) : RunResult :=
  { success := false
    status := "error"
    progress := 0
    final_report := "# Workflow Execution Failed\n\n" ++ msg
    agents_used := none
    error := some msg }

/-- `MultiAgentWorkflow.run`: build the initial state, invoke the graph,
and package the terminal state (forcing `progress = 100` when the status
is `completed`).  `env.runExc` models an exception escaping the `try`
body; an unmapped routing value likewise lands in the `except` clause. -/
def MultiAgentWorkflow.run (env : Env) (query : String) : RunResult :=
  match env.runExc with
  | some msg => errorResult msg
  | none =>
    let initial_state : AgentState :=
      { user_message := query
        messages := [.human query]
        status := "initialized"
        progress := 10 }
    match graphInvoke env initial_state with
    | none => errorResult "Graph routing failed: unknown node"
    | some sf =>
      let final_progress := if sf.status = "completed" then 100 else sf.progress
      { success := sf.success
        status := sf.status
        progress := final_progress
        final_report := sf.final_report
        agents_used := some sf.agent_history
        error := sf.error }

/-- `invoke_workflow` delegates to `MultiAgentWorkflow.run`; its own
`except` clause (workflow-construction failures) is subsumed by
`env.runExc`. -/
def invoke_workflow (env : Env) (query : String) : RunResult :=
  MultiAgentWorkflow.run env query

/-! ## Theorems -/

/-- Helper: the synthesizer always leaves the status at one of the two
terminal values. -/
theorem synthesize_status_terminal (s : AgentState) :
    (synthesize_node s).status = "completed" ∨
    (synthesize_node s).status = "error" := by
  by_cases h : optStrTruthy s.error = true
  · right
    simp [synthesize_node, h]
  · left
    simp [synthesize_node, h]

/-- Claim C6 (corrected), positive part: `synthesize_node` always sets
`progress = 100`, and sets `status` and `success` from the Python
*truthiness* of `state.error` — `None` and the empty string both count as
"no error". -/
theorem c6_synthesize_status_from_error_truthiness (s : AgentState) :
    (synthesize_node s).progress = 100 ∧
    (synthesize_node s).status =
      (if optStrTruthy s.error then "error" else "completed") ∧
    (synthesize_node s).success = !optStrTruthy s.error ∧
    ((synthesize_node s).status = "completed" ∨
     (synthesize_node s).status = "error") := by
  refine ⟨rfl, ?_, ?_, ?_⟩
  · by_cases h : optStrTruthy s.error = true <;> simp [synthesize_node, h]
  · simp [synthesize_node]
  · by_cases h : optStrTruthy s.error = true <;> simp [synthesize_node, h]

/-- Claim C6, counterexample: with `error` *set* to the empty string the
synthesizer reports `status = "completed"` and `success = true`, so
status/success are not determined by whether `error` is set (is not
`None`), only by its truthiness. -/
theorem c6_empty_error_counterexample :
    ({ error := some "" : AgentState }).error.isSome = true ∧
    (synthesize_node { error := some "" : AgentState }).status = "completed" ∧
    (synthesize_node { error := some "" : AgentState }).success = true := by
  refine ⟨rfl, ?_, ?_⟩ <;> simp [synthesize_node, optStrTruthy]

/-- Helper: the synthesis report reads only these eight state fields. -/
theorem synthesisReport_congr (a b : AgentState)
    (h1 : a.user_message = b.user_message)
    (h2 : a.agent_history = b.agent_history)
    (h3 : a.status = b.status)
    (h4 : a.progress = b.progress)
    (h5 : a.error = b.error)
    (h6 : a.stats_agent_response = b.stats_agent_response)
    (h7 : a.media_agent_response = b.media_agent_response)
    (h8 : a.insights = b.insights) :
    synthesisReport a = synthesisReport b := by
  simp only [synthesisReport, agentsUsedLine, h1, h2, h3, h4, h5, h6, h7, h8]

/-- Claim C7: running the synthesizer a second time on the state the
first run produced yields a byte-identical `final_report`: the report is
a function of fields the synthesizer either preserves (`user_message`,
`agent_history`, `error`, responses, insights) or recomputes to the same
values (`status`, `progress`). -/
theorem c7_synthesize_idempotent_report (s : AgentState) :
    (synthesize_node (synthesize_node s)).final_report =
    (synthesize_node s).final_report := by
  simp only [synthesize_node]
  exact synthesisReport_congr _ _ rfl rfl rfl rfl rfl rfl rfl rfl

/-- Claim C10: on its (only) non-exceptional path the synthesizer
appends exactly one AI message whose content is the final report, and
leaves `user_message`, the two agent responses, `insights` and
`agent_history` unchanged. -/
theorem c10_synthesize_frame (s : AgentState) :
    (synthesize_node s).messages =
      s.messages ++ [.ai (synthesize_node s).final_report] ∧
    (synthesize_node s).user_message = s.user_message ∧
    (synthesize_node s).stats_agent_response = s.stats_agent_response ∧
    (synthesize_node s).media_agent_response = s.media_agent_response ∧
    (synthesize_node s).insights = s.insights ∧
    (synthesize_node s).agent_history = s.agent_history := by
  simp [synthesize_node]

/-- The routing call failed: `llm.invoke` raised, or parsing/validation
of its response failed. -/
def routingFailed : LLMOutcome → Bool
  | .raised _ => true
  | .responded p =>
    match parseRoutingDecision p with
    | .error _ => true
    | .ok _ => false

/-- Claim C2: on any parse failure, validation failure (missing or
disallowed `next_agent`), or any transport/unexpected error from the
underlying call, `SupervisorAgent.route` returns the fallback decision:
`next_node = "stats_agent"`, `success = false`, and a reasoning string
built from one of the three diagnostic templates around the failure
message. `route` is a total function, so it never raises to its caller. -/
theorem c2_route_fallback_on_failure (o : LLMOutcome)
    (h : routingFailed o = true) :
    (SupervisorAgent.route o).next_node = some "stats_agent" ∧
    (SupervisorAgent.route o).success = some false ∧
    ∃ d m, (SupervisorAgent.route o).supervisor_reasoning =
        some (d ++ m ++ ". Defaulting to stats_agent.") ∧
      (d = "Error parsing routing decision: " ∨
       d = "Error in routing decision: " ∨
       d = "Unexpected error during routing: ") := by
  match o with
  | .raised m =>
    exact ⟨rfl, rfl, "Unexpected error during routing: ", m, rfl, .inr (.inr rfl)⟩
  | .responded p =>
    match hp : parseRoutingDecision p with
    | .ok d =>
      simp [routingFailed, hp] at h
    | .error (.jsonDecode m) =>
      refine ⟨?_, ?_, "Error parsing routing decision: ", m, ?_, .inl rfl⟩ <;>
        simp [SupervisorAgent.route, routeFallback, hp]
    | .error (.valueError m) =>
      refine ⟨?_, ?_, "Error in routing decision: ", m, ?_, .inr (.inl rfl)⟩ <;>
        simp [SupervisorAgent.route, routeFallback, hp]
    | .error (.otherExn m) =>
      refine ⟨?_, ?_, "Unexpected error during routing: ", m, ?_, .inr (.inr rfl)⟩ <;>
        simp [SupervisorAgent.route, routeFallback, hp]

/-- Witness for C2 at a concrete non-JSON decision-service response. -/
theorem c2_route_fallback_on_failure_witness :
    routingFailed (.responded (.error "Expecting value")) = true ∧
    ((SupervisorAgent.route (.responded (.error "Expecting value"))).next_node =
        some "stats_agent" ∧
     (SupervisorAgent.route (.responded (.error "Expecting value"))).success =
        some false ∧
     ∃ d m, (SupervisorAgent.route
          (.responded (.error "Expecting value"))).supervisor_reasoning =
        some (d ++ m ++ ". Defaulting to stats_agent.") ∧
      (d = "Error parsing routing decision: " ∨
       d = "Error in routing decision: " ∨
       d = "Unexpected error during routing: ")) :=
  ⟨rfl, c2_route_fallback_on_failure (.responded (.error "Expecting value")) rfl⟩

/-- Claim C3 (corrected), positive part: when a stage endpoint is
configured and the remote call yields no text (every transport failure,
JSON-RPC error, and unextractable body makes `call_elastic_agent_a2a`
return `None`), the stage executor returns the canned mock fallback,
routes to synthesis, and leaves the `error` key of its update unset. -/
theorem c3_failed_call_falls_back_without_error (env : Env)
    (st : AgentState) (u₁ u₂ : String)
    (hsu : env.statsUrl = some u₁) (hmu : env.mediaUrl = some u₂)
    (hsc : call_elastic_agent_a2a u₁ st.user_message env.statsCall = none)
    (hmc : call_elastic_agent_a2a u₂ st.user_message env.mediaCall = none) :
    stats_agent_node env st =
      { stats_agent_response := some statsMockFallback, error := none,
        next_node := "synthesize" } ∧
    media_agent_node env st =
      { media_agent_response := some mediaMockFallback, error := none,
        next_node := "synthesize" } := by
  constructor
  · simp [stats_agent_node, hsu, hsc]
  · simp [media_agent_node, hmu, hmc]

/-- Witness for C3: configured endpoints, a timeout on the stats call
and an HTTP 503 on the media call. -/
theorem c3_failed_call_falls_back_without_error_witness :
    stats_agent_node
      { statsUrl := some "https://stats.example", mediaUrl := some "https://media.example",
        statsCall := .timeout, mediaCall := .httpError 503,
        routeOutcome := .responded (.error "x"), joinExc := none, runExc := none }
      ({ user_message := "Who leads the league in scoring?" } : AgentState) =
      { stats_agent_response := some statsMockFallback, error := none,
        next_node := "synthesize" } ∧
    media_agent_node
      { statsUrl := some "https://stats.example", mediaUrl := some "https://media.example",
        statsCall := .timeout, mediaCall := .httpError 503,
        routeOutcome := .responded (.error "x"), joinExc := none, runExc := none }
      ({ user_message := "Who leads the league in scoring?" } : AgentState) =
      { media_agent_response := some mediaMockFallback, error := none,
        next_node := "synthesize" } :=
  c3_failed_call_falls_back_without_error _ _ _ _ rfl rfl rfl rfl

/-- Claim C3, counterexample: with the stats endpoint configured and the
remote call timing out, the stage update carries the mock fallback but
its `error` key is *absent* — the failure is not recorded in
`state.error` (the source's `except` branch that would record it is
unreachable, because `call_elastic_agent_a2a` catches every exception and
returns `None`). -/
theorem c3_failed_call_counterexample :
    (stats_agent_node
      { statsUrl := some "https://stats.example", mediaUrl := none,
        statsCall := .timeout, mediaCall := .timeout,
        routeOutcome := .responded (.error "x"), joinExc := none,
        runExc := none }
      ({ user_message := "Who leads the league in scoring?" } : AgentState)).error = none ∧
    (stats_agent_node
      { statsUrl := some "https://stats.example", mediaUrl := none,
        statsCall := .timeout, mediaCall := .timeout,
        routeOutcome := .responded (.error "x"), joinExc := none,
        runExc := none }
      ({ user_message := "Who leads the league in scoring?" } : AgentState)).stats_agent_response = some statsMockFallback := by
  exact ⟨rfl, rfl⟩

/-- Claim C5 (corrected), positive part: with the stage endpoint
unconfigured the executor returns its fixed canned response as a
success-shaped update — `error` unset, `next_node = "synthesize"` —
regardless of everything else in the environment. -/
theorem c5_unconfigured_returns_canned_no_error
    (su mu : Option String) (sc mc : A2AOutcome) (ro : LLMOutcome)
    (je re : Option String) (st : AgentState) :
    stats_agent_node
      { statsUrl := none, mediaUrl := mu, statsCall := sc, mediaCall := mc,
        routeOutcome := ro, joinExc := je, runExc := re } st =
      { stats_agent_response := some statsMockUnconfigured, error := none,
        next_node := "synthesize" } ∧
    media_agent_node
      { statsUrl := su, mediaUrl := none, statsCall := sc, mediaCall := mc,
        routeOutcome := ro, joinExc := je, runExc := re } st =
      { media_agent_response := some mediaMockUnconfigured, error := none,
        next_node := "synthesize" } := by
  exact ⟨rfl, rfl⟩

/-- Claim C5, counterexample: the canned responses of the *unconfigured*
path contain no mock-data marker — neither `"Mock"` nor `"mock"` occurs
in them, while the codebase's marker `"Mock Data"` does occur in the
*failure-fallback* responses.  An unconfigured stage's output is
therefore not distinguishable by a marker string. -/
theorem c5_unconfigured_mock_lacks_marker_counterexample :
    (stats_agent_node
      { statsUrl := none, mediaUrl := none, statsCall := .timeout,
        mediaCall := .timeout, routeOutcome := .responded (.error "x"),
        joinExc := none, runExc := none }
      ({ user_message := "Who leads the league in scoring?" } : AgentState)).stats_agent_response =
      some statsMockUnconfigured ∧
    (media_agent_node
      { statsUrl := none, mediaUrl := none, statsCall := .timeout,
        mediaCall := .timeout, routeOutcome := .responded (.error "x"),
        joinExc := none, runExc := none }
      ({ user_message := "Who leads the league in scoring?" } : AgentState)).media_agent_response =
      some mediaMockUnconfigured ∧
    strHasSub statsMockUnconfigured "Mock" = false ∧
    strHasSub statsMockUnconfigured "mock" = false ∧
    strHasSub mediaMockUnconfigured "Mock" = false ∧
    strHasSub mediaMockUnconfigured "mock" = false ∧
    strHasSub statsMockFallback "Mock Data" = true ∧
    strHasSub mediaMockFallback "Mock Data" = true := by
  refine ⟨rfl, rfl, ?_, ?_, ?_, ?_, ?_, ?_⟩ <;> decide

/-- Claim C4: the parallel join.  Without a defensive exception, the
merged update carries exactly each stage's own response computed from the
*same* input snapshot (no short-circuit: both are present even when one
stage fell back on failure), with no `error` key and `next_node =
"synthesize"`.  With a defensive exception, both response fields carry the
error-annotated string, `error` is set, and the join still routes to
synthesis.  In both cases both response fields are populated and the
next node is `synthesize`; the join is a total function, so no exception
escapes it. -/
theorem c4_join_both_populated (env : Env) (st : AgentState) :
    (env.joinExc = none →
      stats_and_media_node env st =
        { stats_agent_response :=
            some ((stats_agent_node env st).stats_agent_response.getD ""),
          media_agent_response :=
            some ((media_agent_node env st).media_agent_response.getD ""),
          error := none, next_node := "synthesize" }) ∧
    (∀ msg, env.joinExc = some msg →
      stats_and_media_node env st =
        { stats_agent_response := some ("Error: " ++ msg),
          media_agent_response := some ("Error: " ++ msg),
          error := some msg, next_node := "synthesize" }) ∧
    (stats_and_media_node env st).stats_agent_response.isSome = true ∧
    (stats_and_media_node env st).media_agent_response.isSome = true ∧
    (stats_and_media_node env st).next_node = "synthesize" := by
  refine ⟨fun h => by simp [stats_and_media_node, h],
          fun msg h => by simp [stats_and_media_node, h], ?_, ?_, ?_⟩ <;>
    cases h : env.joinExc <;> simp [stats_and_media_node, h]

/-- Witness for C4 at an environment where the stats stage fails (its
call times out) and the media stage succeeds via the unconfigured-mock
path: both fields are still populated and the join reaches synthesis. -/
theorem c4_join_both_populated_witness :
    stats_and_media_node
      { statsUrl := some "https://stats.example", mediaUrl := none,
        statsCall := .timeout, mediaCall := .timeout,
        routeOutcome := .responded (.error "x"), joinExc := none,
        runExc := none }
      ({ user_message := "Who leads the league in scoring?" } : AgentState) =
      { stats_agent_response := some statsMockFallback,
        media_agent_response := some mediaMockUnconfigured,
        error := none, next_node := "synthesize" } :=
  (c4_join_both_populated
    { statsUrl := some "https://stats.example", mediaUrl := none,
      statsCall := .timeout, mediaCall := .timeout,
      routeOutcome := .responded (.error "x"), joinExc := none,
      runExc := none }
    ({ user_message := "Who leads the league in scoring?" } : AgentState)).1 rfl

/-- Rule (b) of the extraction order as its own definition: a plain
string result is returned as such (even when empty). -/
def stringResultRule (r : Json) : Option Json :=
  match r with
  | .str s => some (.str s)
  | _ => none

/-- Claim C8 (corrected): the extraction from the JSON-RPC `result`
value is exactly the ordered alternation of the four rules — `parts`
array (first text-kind segment with truthy text), plain string result
(returned even when empty), the well-known alternate field names, the
nested artifacts structure — and it signals no extractable text (`none`)
precisely when every rule fails. -/
theorem c8_extraction_rule_order (result : Json) :
    extractFromResult result =
      ((partsPath result).orElse (fun _ =>
        (stringResultRule result).orElse (fun _ =>
          (altFieldsPath result altFieldNames).orElse (fun _ =>
            artifactsPath result)))) ∧
    (extractFromResult result = none ↔
      partsPath result = none ∧ stringResultRule result = none ∧
      altFieldsPath result altFieldNames = none ∧
      artifactsPath result = none) := by
  have heq : extractFromResult result =
      ((partsPath result).orElse (fun _ =>
        (stringResultRule result).orElse (fun _ =>
          (altFieldsPath result altFieldNames).orElse (fun _ =>
            artifactsPath result)))) := by
    cases result with
    | obj fs =>
      cases hp : partsPath (.obj fs) with
      | some t => simp [extractFromResult, hp, Option.orElse, stringResultRule]
      | none =>
        cases ha : altFieldsPath (.obj fs) altFieldNames <;>
          simp [extractFromResult, hp, ha, Option.orElse, stringResultRule]
    | null => rfl
    | bool b => rfl
    | num n => rfl
    | str s => rfl
    | arr xs => rfl
  refine ⟨heq, ?_⟩
  rw [heq]
  cases partsPath result <;> cases stringResultRule result <;>
    cases altFieldsPath result altFieldNames <;> simp [Option.orElse]

/-- Claim C8, counterexample: a transport-success body whose `result` is
the empty string.  Rule (b) matches and the *empty* text is returned
(rather than treating it as no extractable text), so "the first matching
non-empty text is returned" fails as stated. -/
theorem c8_empty_string_result_counterexample :
    extractText (Json.obj [("result", Json.str "")]) = some (Json.str "") :=
  rfl

/-- Claim C9: the workflow wiring of `MultiAgentWorkflow._build_workflow`.
Every routing-decision value has exactly one successor node under the
conditional map; an absent `next_node` key in the routing result defaults
the dispatch to the stats node; the three worker nodes each have the
unconditional edge to synthesis, which has the unconditional edge to END
(`finish`). -/
theorem c9_graph_wiring :
    conditionalMap "stats_agent" = some .stats_agent ∧
    conditionalMap "media_agent" = some .media_agent ∧
    conditionalMap "both" = some .both_agents ∧
    conditionalMap "synthesize" = some .synthesize ∧
    (["stats_agent", "media_agent", "both", "synthesize"].all
      (fun v => (conditionalMap v).isSome)) = true ∧
    (∀ s : AgentState, (applyRouteResult {} s).next_node = "stats_agent") ∧
    (GNode.start, GNode.supervisor) ∈ unconditionalEdges ∧
    (GNode.stats_agent, GNode.synthesize) ∈ unconditionalEdges ∧
    (GNode.media_agent, GNode.synthesize) ∈ unconditionalEdges ∧
    (GNode.both_agents, GNode.synthesize) ∈ unconditionalEdges ∧
    (GNode.synthesize, GNode.finish) ∈ unconditionalEdges := by
  refine ⟨rfl, rfl, rfl, rfl, rfl, fun s => rfl, ?_, ?_, ?_, ?_, ?_⟩ <;> decide

/-- Helper: a successful graph invocation always passes through the
synthesizer last. -/
theorem graphInvoke_synthesized (env : Env) (s0 sf : AgentState)
    (h : graphInvoke env s0 = some sf) :
    ∃ t, sf = synthesize_node t := by
  unfold graphInvoke at h
  dsimp only [] at h
  rcases hm : conditionalMap (supervisor_node env.routeOutcome s0).next_node
    with _ | n
  · rw [hm] at h
    cases h
  · rw [hm] at h
    cases n <;> cases h <;> exact ⟨_, rfl⟩

/-- Claim C1: for every environment behaviour and every query,
`MultiAgentWorkflow.run` (and `invoke_workflow`, which delegates to it)
is a total function — it can neither hang nor raise — and the result
record always carries `status ∈ {"completed", "error"}` alongside the
`success`, `progress`, `final_report` and `error` fields of `RunResult`. -/
theorem c1_run_terminal_status (env : Env) (query : String) :
    ((MultiAgentWorkflow.run env query).status = "completed" ∨
     (MultiAgentWorkflow.run env query).status = "error") ∧
    invoke_workflow env query = MultiAgentWorkflow.run env query := by
  refine ⟨?_, rfl⟩
  unfold MultiAgentWorkflow.run
  cases hx : env.runExc with
  | some msg => simp [errorResult]
  | none =>
    cases hg : graphInvoke env
        { user_message := query, messages := [.human query],
          status := "initialized", progress := 10 } with
    | none => simp [hg, errorResult]
    | some sf =>
      obtain ⟨t, rfl⟩ := graphInvoke_synthesized env _ sf hg
      simp only [hg]
      exact synthesize_status_terminal t
